import Mathlib

/-! docker-gen: the live-state synchronisation engine.

A shallow embedding of `generator/generator.go`, `generator/docker_client.go`
and `generator/config.go`, and theorems about it.

Go strings are embedded as Lean `String`s (UTF-8 text).  Lean's `String.Pos` is
a byte offset, like a Go string index, so `strings.Index`, `len` and the slice
expressions are embedded with byte offsets.

A function with side effects takes the state `w` of the outside world and returns
its result, the next state, and the list of the calls it made to the outside, in
the order it made them.  A function that can panic returns an `Except Panic`.
Logging is not embedded.
-/

namespace DockerGen

/-! ## Go runtime pieces used by the source -/

/-- Run-time panics the embedded code can raise. -/
inductive Panic where
  /-- slice bounds out of range -/
  | sliceBounds (lo hi len : Int)
  /-- `time.NewTicker` called with a non-positive duration -/
  | nonPositiveTicker (d : Int)
  /-- invalid memory address or nil pointer dereference -/
  | nilDereference
deriving DecidableEq, Repr

/-- `len(s)` of a Go string: its number of bytes. -/
def len (s : String) : Int := s.utf8ByteSize

/-- `strings.Contains(s, sep)` for a separator of one character. -/
def Contains (s : String) (sep : Char) : Bool := s.contains sep

/-- `strings.Index(s, sep)` for a separator of one character: the byte offset of
the first occurrence, `-1` when there is none. -/
def Index (s : String) (sep : Char) : Int :=
  if s.contains sep then ((s.posOf sep).byteIdx : Int) else -1

/-- The slice expression `s[lo:hi]`; it panics unless `0 ≤ lo ≤ hi ≤ len(s)`. -/
def slice (s : String) (lo hi : Int) : Except Panic String :=
  if 0 ≤ lo ∧ lo ≤ hi ∧ hi ≤ len s then
    .ok (s.extract ⟨lo.toNat⟩ ⟨hi.toNat⟩)
  else
    .error (.sliceBounds lo hi (len s))

/-- The slice expression `s[lo:]`, that is `s[lo:len(s)]`. -/
def sliceFrom (s : String) (lo : Int) : Except Panic String := slice s lo (len s)

/-- The slice expression `s[:hi]`, that is `s[0:hi]`. -/
def sliceTo (s : String) (hi : Int) : Except Panic String := slice s 0 hi

/-! ## Data model (`generator.go`) -/

/-- The type `DockerImage`. -/
structure DockerImage where
  Registry : String
  Repository : String
  Tag : String
deriving DecidableEq, Repr

/-- The method `(*DockerImage).String`. -/
def DockerImage.String (i : DockerImage) : String :=
  let ret := i.Repository
  let ret := if i.Registry != "" then i.Registry ++ "/" ++ i.Repository else ret
  let ret := if i.Tag != "" then ret ++ ":" ++ i.Tag else ret
  ret

/-- The function `splitDockerImage` of `docker_client.go`. -/
def splitDockerImage (img : String) : Except Panic (String × String × String) := do
  let index : Int := 0
  let repository := img
  let registry := ""
  let tag := ""
  let (registry, repository) ←
    if Contains img '/' then do
      let separator := Index img '/'
      let registry ← slice img index separator
      let index := separator + 1
      let repository ← sliceFrom img index
      pure (registry, repository)
    else
      pure (registry, repository)
  let (tag, repository) ←
    if Contains repository ':' then do
      let separator := Index repository ':'
      let tag ← sliceFrom repository (separator + 1)
      let repository ← slice repository 0 separator
      pure (tag, repository)
    else
      pure (tag, repository)
  return (registry, repository, tag)

/-- `strings.HasPrefix(s, p)`. -/
def startsWith (s p : String) : Bool := p.data.isPrefixOf s.data

/-- `strings.TrimLeft(s, cutset)` for a cutset of one character. -/
def TrimLeft (s : String) (cut : Char) : String := ⟨s.data.dropWhile (fun x => x == cut)⟩

/-- Go's `int64` arithmetic wraps around; `wrapInt64 x` is the `int64` that the
mathematical integer `x` is stored as. -/
def wrapInt64 (x : Int) : Int := (x + 2 ^ 63) % 2 ^ 64 - 2 ^ 63

/-- `time.Second`, in nanoseconds. -/
def Second : Int := 1000000000

/-- `time.Duration(n) * time.Second` for an `int` value `n`. -/
def seconds (n : Int) : Int := wrapInt64 (wrapInt64 n * Second)

/-- A `*time.Ticker`, by its period in nanoseconds. -/
structure Ticker where
  period : Int
deriving DecidableEq, Repr

/-- `time.NewTicker(d)`: "The duration d must be greater than zero; if not,
NewTicker will panic." -/
def NewTicker (d : Int) : Except Panic Ticker :=
  if d ≤ 0 then .error (.nonPositiveTicker d) else .ok ⟨d⟩

/-- Go `error` values. -/
abbrev Err := String

/-- The type `docker.Signal` is an `int`. -/
abbrev Signal := Int

/-- A non-nil `*docker.Client`: a handle on a connection to the daemon. -/
structure Client where
  id : Nat
deriving DecidableEq, Repr

/-! ## Records of `generator.go` and `config.go`

A Go `map` is embedded as the list of its entries, in the order a `range`
statement over it visits them. -/

/-- The type `Address`. -/
structure Address where
  IP : String
  IP6LinkLocal : String
  IP6Global : String
  Port : String
  HostPort : String
  Proto : String
  HostIP : String
deriving DecidableEq, Repr

/-- The type `Volume`. -/
structure Volume where
  Path : String
  HostPath : String
  ReadWrite : Bool
deriving DecidableEq, Repr

/-- The type `SwarmNode`. -/
structure SwarmNode where
  ID : String
  Name : String
  Address : Address
deriving DecidableEq, Repr

/-- The type `RuntimeContainer`. -/
structure RuntimeContainer where
  ID : String
  Addresses : List Address
  Gateway : String
  Name : String
  Hostname : String
  Image : DockerImage
  Env : List (String × String)
  Volumes : List (String × Volume)
  Node : SwarmNode
  Labels : List (String × String)
  IP : String
  IP6LinkLocal : String
  IP6Global : String
deriving DecidableEq, Repr

/-- The type `Context`, a snapshot of the running containers. -/
abbrev Context := List RuntimeContainer

/-- The type `Config` of `generator.go`: one output. -/
structure Config where
  Template : String
  Dest : String
  Watch : Bool
  NotifyCmd : String
  NotifyContainers : List (String × Signal)
  OnlyExposed : Bool
  OnlyPublished : Bool
  Interval : Int
  KeepBlankLines : Bool
deriving DecidableEq, Repr

/-- The type `ConfigFile`. -/
structure ConfigFile where
  Config : List Config
deriving DecidableEq, Repr

/-- The method `(*ConfigFile).filterWatches`. -/
def ConfigFile.filterWatches (c : ConfigFile) : ConfigFile :=
  let rec loop : List DockerGen.Config → List DockerGen.Config → List DockerGen.Config
    | [], configWithWatches => configWithWatches
    | config :: rest, configWithWatches =>
      if config.Watch then loop rest (configWithWatches ++ [config])
      else loop rest configWithWatches
  { Config := loop c.Config [] }

/-- The state of a `Generator` that its methods read and write: `g.configs`,
`g.endpoint`, `g.client` (`none` is the nil pointer) and the counter of the
wait group `g.wg`. -/
structure Generator where
  configs : ConfigFile
  endpoint : String
  client : Option Client
  wg : Nat
deriving DecidableEq, Repr

/-! ## The world outside the embedded functions

The functions below call the Docker client library, the operating system and
functions of this repository whose source is not at hand.  Each of them is a
parameter: a function of the hidden state `W` of the outside world that returns
its result and the next state.  A theorem for all `W` and all `Ext W` holds
whatever these calls return or change. -/

/-- The field of `docker.APIContainers` that `getContainers` reads. -/
structure APIContainers where
  ID : String
deriving DecidableEq, Repr

/-- A `docker.PortBinding`. -/
structure PortBinding where
  HostIP : String
  HostPort : String
deriving DecidableEq, Repr

/-- A `docker.Port`, by the results of its methods `Port()` and `Proto()`. -/
structure Port where
  port : String
  proto : String
deriving DecidableEq, Repr

/-- The fields of `docker.SwarmNode` that `getContainers` reads. -/
structure NodeInfo where
  ID : String
  Name : String
  IP : String
deriving DecidableEq, Repr

/-- The fields of `docker.Container` that `getContainers` reads, those of
`Config` and `NetworkSettings` flattened. -/
structure Container where
  ID : String
  Name : String
  Image : String
  Hostname : String
  Env : List String
  Labels : List (String × String)
  Gateway : String
  IPAddress : String
  LinkLocalIPv6Address : String
  GlobalIPv6Address : String
  Ports : List (Port × List PortBinding)
  Volumes : List (String × String)
  VolumesRW : List (String × Bool)
  Node : Option NodeInfo
deriving DecidableEq, Repr

/-- The `docker.APIEvents` fields. -/
structure APIEvents where
  Status : String
  ID : String
  From : String
deriving DecidableEq, Repr

/-- What the `select` of the event loop wakes up on: a value received from
`eventChan` (`none` is the nil pointer) or the 10 second timer. -/
inductive Wake where
  | event (e : Option APIEvents)
  | timeout
deriving DecidableEq, Repr

/-- An error of `AddEventListener`: `docker.ErrListenerAlreadyExists` or another. -/
inductive ListenErr where
  | alreadyExists
  | other (e : Err)
deriving DecidableEq, Repr

/-- The package-level variables `tlsCert`, `tlsKey`, `tlsCaCert`, `tlsVerify`. -/
structure TLS where
  tlsCert : String
  tlsKey : String
  tlsCaCert : String
  tlsVerify : Bool
deriving DecidableEq, Repr

/-- The calls that leave the embedded code. -/
structure Ext (W : Type) where
  /-- `client.ListContainers(opts)` -/
  ListContainers : Client → W → Except Err (List APIContainers) × W
  /-- `client.InspectContainer(id)` -/
  InspectContainer : Client → String → W → Except Err Container × W
  /-- `client.KillContainer(opts)`; `none` is a nil error -/
  KillContainer : Client → String → Signal → W → Option Err × W
  /-- `client.Ping()` -/
  Ping : Client → W → Option Err × W
  /-- `client.AddEventListener(eventChan)` -/
  AddEventListener : Client → W → Option ListenErr × W
  /-- `client.RemoveEventListener(eventChan)` -/
  RemoveEventListener : Client → W → Option Err × W
  /-- `docker.NewClient(endpoint)` -/
  NewClient : String → W → Except Err Client × W
  /-- `docker.NewTLSClient(endpoint, cert, key, ca)` -/
  NewTLSClient : String → String → String → String → W → Except Err Client × W
  /-- `exec.Command("/bin/sh", "-c", cmd).CombinedOutput()` -/
  CombinedOutput : String → W → (String × Option Err) × W
  /-- `generateFile(config, containers)`, of this repository -/
  generateFile : Config → Context → W → Bool × W
  /-- `utils.GetEndpoint(endpoint)`, of this repository -/
  GetEndpoint : String → W → Except Err String × W
  /-- `utils.PathExists(path)`, of this repository -/
  PathExists : String → W → (Bool × Option Err) × W
  /-- `utils.SplitKeyValueSlice(in)`, of this repository -/
  SplitKeyValueSlice : List String → List (String × String)
  /-- the `select` on `eventChan` and `time.After(10 * time.Second)` -/
  selectEvent : W → Wake × W
  /-- the package-level TLS variables -/
  tls : TLS

/-- The calls to the outside that the theorems speak about, as they are made. -/
inductive Effect where
  /-- `client.ListContainers`, the start of a snapshot pull -/
  | listContainers (client : Client)
  /-- `generateFile(config, containers)` and the change result it returned -/
  | render (config : Config) (containers : Context) (changed : Bool)
  /-- the notify command run through `/bin/sh -c` -/
  | notifyCmd (cmd : String)
  /-- `client.KillContainer`, a signal request -/
  | signal (client : Client) (container : String) (sig : Signal)
  | ping (client : Client)
  | addEventListener (client : Client)
  | removeEventListener (client : Client)
  | getEndpoint (endpoint : String)
  /-- `newDockerClient(endpoint)`, a connect attempt -/
  | connect (endpoint : String)
  /-- `time.Sleep(n * time.Second)` -/
  | sleep (n : Nat)
deriving DecidableEq, Repr

/-- Is the effect a render call? -/
def Effect.isRender : Effect → Bool
  | .render _ _ _ => true
  | _ => false

/-- Is the effect a run of a notify command? -/
def Effect.isNotifyCmd : Effect → Bool
  | .notifyCmd _ => true
  | _ => false

/-- Is the effect a signal request? -/
def Effect.isSignal : Effect → Bool
  | .signal _ _ _ => true
  | _ => false

/-! ## `docker_client.go` -/

/-- The zero value `Address{}`. -/
def Address.zero : Address := ⟨"", "", "", "", "", "", ""⟩

/-- The body of the loop of `getContainers` after a successful inspection: the
`RuntimeContainer` built from the inspected container. -/
def runtimeContainer {W : Type} (x : Ext W) (container : Container) :
    Except Panic RuntimeContainer := do
  let (registry, repository, tag) ← splitDockerImage container.Image
  let addresses := container.Ports.map fun (k, v) =>
    let address : Address :=
      { IP := container.IPAddress
        IP6LinkLocal := container.LinkLocalIPv6Address
        IP6Global := container.GlobalIPv6Address
        Port := k.port
        Proto := k.proto
        HostPort := ""
        HostIP := "" }
    match v with
    | b :: _ => { address with HostPort := b.HostPort, HostIP := b.HostIP }
    | [] => address
  let volumes := container.Volumes.map fun (k, v) =>
    (k, ({ Path := k, HostPath := v, ReadWrite := (container.VolumesRW.lookup k).getD false }
      : Volume))
  let node : SwarmNode :=
    match container.Node with
    | some n => { ID := n.ID, Name := n.Name, Address := { Address.zero with IP := n.IP } }
    | none => { ID := "", Name := "", Address := Address.zero }
  return {
    ID := container.ID
    Image := { Registry := registry, Repository := repository, Tag := tag }
    Name := TrimLeft container.Name '/'
    Hostname := container.Hostname
    Gateway := container.Gateway
    Addresses := addresses
    Env := x.SplitKeyValueSlice container.Env
    Volumes := volumes
    Node := node
    Labels := container.Labels
    IP := container.IPAddress
    IP6LinkLocal := container.LinkLocalIPv6Address
    IP6Global := container.GlobalIPv6Address }

/-- The loop of `getContainers` over the listed containers; `containers` is the
slice built so far.  A container whose inspection fails is logged and skipped. -/
def getContainers.loop {W : Type} (x : Ext W) (client : Client) :
    List APIContainers → Context → W → Except Panic Context × W
  | [], containers, w => (.ok containers, w)
  | apiContainer :: rest, containers, w =>
    match x.InspectContainer client apiContainer.ID w with
    | (.error _, w1) => getContainers.loop x client rest containers w1
    | (.ok container, w1) =>
      match runtimeContainer x container with
      | .error p => (.error p, w1)
      | .ok rc => getContainers.loop x client rest (containers ++ [rc]) w1

/-- The function `getContainers`: the snapshot pull.  The result is a panic, or the
pair `([]*RuntimeContainer, error)` as `Except Err Context`. -/
def getContainers {W : Type} (x : Ext W) (client : Client) (w : W) :
    Except Panic (Except Err Context) × W × List Effect :=
  match x.ListContainers client w with
  | (.error err, w1) => (.ok (.error err), w1, [.listContainers client])
  | (.ok apiContainers, w1) =>
    match getContainers.loop x client apiContainers [] w1 with
    | (.error p, w2) => (.error p, w2, [.listContainers client])
    | (.ok containers, w2) => (.ok (.ok containers), w2, [.listContainers client])

/-! ## `generator.go`: connecting -/

/-- The loop of `tlsEnabled` over the three paths. -/
def tlsEnabled.loop {W : Type} (x : Ext W) : List String → W → Bool × W
  | [], w => (false, w)
  | v :: rest, w =>
    match x.PathExists v w with
    | ((e, err), w1) => if e && err.isNone then (true, w1) else tlsEnabled.loop x rest w1

/-- The function `tlsEnabled`. -/
def tlsEnabled {W : Type} (x : Ext W) (w : W) : Bool × W :=
  tlsEnabled.loop x [x.tls.tlsCert, x.tls.tlsCaCert, x.tls.tlsKey] w

/-- The function `newDockerClient`. -/
def newDockerClient {W : Type} (x : Ext W) (endpoint : String) (w : W) : Except Err Client × W :=
  if startsWith endpoint "unix:" then
    x.NewClient endpoint w
  else
    match (if x.tls.tlsVerify then (true, w) else tlsEnabled x w) with
    | (true, w1) =>
      if x.tls.tlsVerify then
        match x.PathExists x.tls.tlsCaCert w1 with
        | ((e, err), w2) =>
          if !e || err.isSome then
            (.error "TLS verification was requested, but CA cert does not exist", w2)
          else
            x.NewTLSClient endpoint x.tls.tlsCert x.tls.tlsKey x.tls.tlsCaCert w2
      else
        x.NewTLSClient endpoint x.tls.tlsCert x.tls.tlsKey x.tls.tlsCaCert w1
    | (false, w1) => x.NewClient endpoint w1

/-! ## `generator.go`: the Notifier -/

/-- The function `runNotifyCmd`.  An error of the command is logged. -/
def runNotifyCmd {W : Type} (x : Ext W) (config : Config) (w : W) : W × List Effect :=
  if config.NotifyCmd == "" then
    (w, [])
  else
    match x.CombinedOutput config.NotifyCmd w with
    | (_, w1) => (w1, [.notifyCmd config.NotifyCmd])

/-- The loop of `sendSignalToContainer` over the entries of the notify-target
map.  An error of `KillContainer` is logged. -/
def sendSignalToContainer.loop {W : Type} (x : Ext W) (client : Client) :
    List (String × Signal) → W → W × List Effect
  | [], w => (w, [])
  | (container, signal) :: rest, w =>
    match x.KillContainer client container signal w with
    | (_, w1) =>
      match sendSignalToContainer.loop x client rest w1 with
      | (w2, t) => (w2, .signal client container signal :: t)

/-- The function `sendSignalToContainer`. -/
def sendSignalToContainer {W : Type} (x : Ext W) (client : Client) (config : Config) (w : W) :
    W × List Effect :=
  if config.NotifyContainers.length < 1 then
    (w, [])
  else
    sendSignalToContainer.loop x client config.NotifyContainers w

/-- One Notifier run on a handle: the statements `runNotifyCmd(config)` and
`sendSignalToContainer(g.client, config)` in sequence, as `generateFromContainers`
makes them.  The interval task makes the same two calls, with its own read of
`g.client` (see `IntervalTask.turn`). -/
def notifier {W : Type} (x : Ext W) (client : Client) (config : Config) (w : W) :
    W × List Effect :=
  match runNotifyCmd x config w with
  | (w1, t1) =>
    match sendSignalToContainer x client config w1 with
    | (w2, t2) => (w2, t1 ++ t2)

/-! ## `generator.go`: the generate-all pass -/

/-- The loop of `generateFromContainers` over `g.configs.Config`. -/
def generateFromContainers.loop {W : Type} (x : Ext W) (client : Client) (containers : Context) :
    List Config → W → W × List Effect
  | [], w => (w, [])
  | config :: rest, w =>
    match x.generateFile config containers w with
    | (changed, w1) =>
      if !changed then
        match generateFromContainers.loop x client containers rest w1 with
        | (w2, t) => (w2, .render config containers changed :: t)
      else
        match notifier x client config w1 with
        | (w2, t2) =>
          match generateFromContainers.loop x client containers rest w2 with
          | (w3, t) => (w3, .render config containers changed :: (t2 ++ t))

/-- The method `(*Generator).generateFromContainers`, on the output list
`g.configs` and the handle `g.client` (not nil where it is called). -/
def generateFromContainers {W : Type} (x : Ext W) (configs : ConfigFile) (client : Client)
    (w : W) : Except Panic Unit × W × List Effect :=
  match getContainers x client w with
  | (.error p, w1, t1) => (.error p, w1, t1)
  | (.ok (.error _), w1, t1) => (.ok (), w1, t1)
  | (.ok (.ok containers), w1, t1) =>
    match generateFromContainers.loop x client containers configs.Config w1 with
    | (w2, t2) => (.ok (), w2, t1 ++ t2)

/-! ## `generator.go`: interval tasks -/

/-- A goroutine started by `generateAtInterval`: its copy of the output config
and its ticker. -/
structure IntervalTask where
  configCopy : Config
  ticker : Ticker
deriving DecidableEq, Repr

/-- Where `generateAtInterval` stands: the goroutines started so far, the counter
of the wait group, and the panic that stopped it, if any. -/
structure Launched where
  tasks : List IntervalTask
  wg : Nat
  panic : Option Panic
deriving DecidableEq, Repr

/-- The loop of `generateAtInterval` over `g.configs.Config`. -/
def generateAtInterval.loop : List Config → Launched → Launched
  | [], acc => acc
  | config :: rest, acc =>
    if config.Interval == 0 then
      generateAtInterval.loop rest acc
    else
      let acc := { acc with wg := acc.wg + 1 }
      match NewTicker (seconds config.Interval) with
      | .error p => { acc with panic := some p }
      | .ok ticker =>
        let configCopy := config
        generateAtInterval.loop rest { acc with tasks := acc.tasks ++ [⟨configCopy, ticker⟩] }

/-- The method `(*Generator).generateAtInterval`. -/
def generateAtInterval (g : Generator) : Launched :=
  generateAtInterval.loop g.configs.Config { tasks := [], wg := g.wg, panic := none }

/-- What the `select` of an interval task wakes up on. -/
inductive TaskWake where
  | tick
  | quit
deriving DecidableEq, Repr

/-- The call `getContainers(p)` for a pointer `p` that may be nil.  The first
statement of `getContainers` is the method call `client.ListContainers`, which
dereferences its receiver: on the nil pointer it panics before any request. -/
def getContainers.ofPointer {W : Type} (x : Ext W) (p : Option Client) (w : W) :
    Except Panic (Except Err Context) × W × List Effect :=
  match p with
  | none => (.error .nilDereference, w, [])
  | some client => getContainers x client w

/-- The call `sendSignalToContainer(p, config)` for a pointer `p` that may be nil.
The function returns before it uses `p` when the notify-target map is empty;
otherwise the first `client.KillContainer` dereferences it and panics on the nil
pointer, before any signal request. -/
def sendSignalToContainer.ofPointer {W : Type} (x : Ext W) (p : Option Client)
    (config : Config) (w : W) : Except Panic Unit × W × List Effect :=
  match p with
  | none =>
    if config.NotifyContainers.length < 1 then (.ok (), w, [])
    else (.error .nilDereference, w, [])
  | some client =>
    match sendSignalToContainer x client config w with
    | (w1, t) => (.ok (), w1, t)

/-- One turn of the `for`/`select` loop of an interval task.  The goroutine reads
the shared field `g.client` twice in a tick, for `getContainers(g.client)` and for
`sendSignalToContainer(g.client, configCopy)`, while the event watcher, another
goroutine, writes it (it sets it to nil after a failed ping or a closed event
channel): `atPull` and `atSignal` are the two values read.  The Boolean tells
whether the loop goes on (`true`) or the goroutine returns (`false`). -/
def IntervalTask.turn {W : Type} (x : Ext W) (atPull atSignal : Option Client)
    (t : IntervalTask) (wake : TaskWake) (w : W) : Except Panic Bool × W × List Effect :=
  match wake with
  | .tick =>
    match getContainers.ofPointer x atPull w with
    | (.error p, w1, t1) => (.error p, w1, t1)
    | (.ok (.error _), w1, t1) => (.ok true, w1, t1)
    | (.ok (.ok containers), w1, t1) =>
      match x.generateFile t.configCopy containers w1 with
      | (changed, w2) =>
        match runNotifyCmd x t.configCopy w2 with
        | (w3, t3) =>
          match sendSignalToContainer.ofPointer x atSignal t.configCopy w3 with
          | (.error p, w4, t4) =>
            (.error p, w4, t1 ++ .render t.configCopy containers changed :: (t3 ++ t4))
          | (.ok (), w4, t4) =>
            (.ok true, w4, t1 ++ .render t.configCopy containers changed :: (t3 ++ t4))
  | .quit => (.ok false, w, [])

/-! ## `generator.go`: the event watcher

`generateFromEvents` is two nested endless loops.  The embedding is a step
function: one step runs from the head of a loop to the next head of a loop. -/

/-- The head of the outer `for`, or the head of the inner `for` with the value
of the local variable `watching`. -/
inductive Loc where
  | outer
  | inner (watching : Bool)
deriving DecidableEq, Repr

/-- The start of `generateFromEvents`, before the loops: `none` when the method
returns at once, otherwise the loops are entered at the head of the outer one. -/
def generateFromEvents.start (g : Generator) : Generator × Option Loc :=
  let g := { g with configs := g.configs.filterWatches }
  if g.configs.Config.length == 0 then
    (g, none)
  else
    ({ g with wg := g.wg + 1 }, some .outer)

/-- A step from the head of the outer loop: connect if there is no handle, then
enter the inner loop with `watching := false`. -/
def generateFromEvents.outer {W : Type} (x : Ext W) (g : Generator) (w : W) :
    Except Panic (Generator × Loc) × W × List Effect :=
  match g.client with
  | none =>
    match x.GetEndpoint g.endpoint w with
    | (.error _, w1) => (.ok (g, .outer), w1, [.getEndpoint g.endpoint, .sleep 10])
    | (.ok endpoint, w1) =>
      match newDockerClient x endpoint w1 with
      | (.error _, w2) =>
        (.ok (g, .outer), w2, [.getEndpoint g.endpoint, .connect endpoint, .sleep 10])
      | (.ok client, w2) =>
        let g1 := { g with client := some client }
        match generateFromContainers x g1.configs client w2 with
        | (.error p, w3, t) =>
          (.error p, w3, [.getEndpoint g.endpoint, .connect endpoint] ++ t)
        | (.ok (), w3, t) =>
          (.ok (g1, .inner false), w3, [.getEndpoint g.endpoint, .connect endpoint] ++ t)
  | some _ => (.ok (g, .inner false), w, [])

/-- The `select` statement of the inner loop and what follows it, up to the next
head of the inner loop. -/
def generateFromEvents.select {W : Type} (x : Ext W) (g : Generator) (client : Client)
    (watching : Bool) (w : W) : Except Panic (Generator × Loc) × W × List Effect :=
  match x.selectEvent w with
  | (.event none, w1) =>
    if watching then
      match x.RemoveEventListener client w1 with
      | (_, w2) => (.ok ({ g with client := none }, .inner false), w2, [.removeEventListener client])
    else
      (.ok (g, .inner watching), w1, [])
  | (.event (some event), w1) =>
    if event.Status == "start" || event.Status == "stop" || event.Status == "die" then
      match sliceTo event.ID 12 with
      | .error p => (.error p, w1, [])
      | .ok _ =>
        match generateFromContainers x g.configs client w1 with
        | (.error p, w2, t) => (.error p, w2, t)
        | (.ok (), w2, t) => (.ok (g, .inner watching), w2, t)
    else
      (.ok (g, .inner watching), w1, [])
  | (.timeout, w1) => (.ok (g, .inner watching), w1, [])

/-- A step from the head of the inner loop. -/
def generateFromEvents.inner {W : Type} (x : Ext W) (g : Generator) (watching : Bool) (w : W) :
    Except Panic (Generator × Loc) × W × List Effect :=
  match g.client with
  | none => (.ok (g, .outer), w, [])
  | some client =>
    match x.Ping client w with
    | (some _, w1) =>
      if watching then
        match x.RemoveEventListener client w1 with
        | (_, w2) =>
          (.ok ({ g with client := none }, .outer), w2,
            [.ping client, .removeEventListener client, .sleep 10])
      else
        (.ok (g, .outer), w1, [.ping client, .sleep 10])
    | (none, w1) =>
      if !watching then
        match x.AddEventListener client w1 with
        | (some (.other _), w2) =>
          (.ok (g, .inner watching), w2, [.ping client, .addEventListener client, .sleep 10])
        | (_, w2) =>
          match generateFromEvents.select x g client true w2 with
          | (r, w3, t) => (r, w3, [.ping client, .addEventListener client] ++ t)
      else
        match generateFromEvents.select x g client watching w1 with
        | (r, w2, t) => (r, w2, .ping client :: t)

/-- One step of the loops of `generateFromEvents`. -/
def generateFromEvents.step {W : Type} (x : Ext W) (g : Generator) (loc : Loc) (w : W) :
    Except Panic (Generator × Loc) × W × List Effect :=
  match loc with
  | .outer => generateFromEvents.outer x g w
  | .inner watching => generateFromEvents.inner x g watching w

/-- The first `n` steps of the loops, from `(g, loc)`; the run stops at a panic. -/
def generateFromEvents.run {W : Type} (x : Ext W) :
    Nat → Generator → Loc → W → Except Panic (Generator × Loc) × W × List Effect
  | 0, g, loc, w => (.ok (g, loc), w, [])
  | n + 1, g, loc, w =>
    match generateFromEvents.step x g loc w with
    | (.error p, w1, t) => (.error p, w1, t)
    | (.ok (g1, loc1), w1, t) =>
      match generateFromEvents.run x n g1 loc1 w1 with
      | (r, w2, t2) => (r, w2, t ++ t2)

/-- The method `(*Generator).generateFromEvents`, cut off after `n` steps of its
loops: `none` when it returns before the loops. -/
def generateFromEvents {W : Type} (x : Ext W) (n : Nat) (g : Generator) (w : W) :
    Generator × Option (Except Panic (Generator × Loc) × W × List Effect) :=
  match generateFromEvents.start g with
  | (g1, none) => (g1, none)
  | (g1, some loc) => (g1, some (generateFromEvents.run x n g1 loc w))

/-- Text of `l` before the first `c` (all of `l` when `c` does not occur). -/
def textBefore (c : Char) (l : List Char) : List Char := l.takeWhile (fun x => !(x == c))

/-- Text of `l` after the first `c` (empty when `c` does not occur). -/
def textAfter (c : Char) (l : List Char) : List Char := (l.dropWhile (fun x => !(x == c))).drop 1

/-- What is left of an image name once the registry is taken off: the text after
the first `/`, or the whole name when it has no `/`. -/
def remainder (img : String) : List Char :=
  if '/' ∈ img.data then textAfter '/' img.data else img.data

/-- Image names the round trip is stated for: the name does not start with `/`,
and the first `:` of the remainder, if any, is not its last character. -/
def RoundTripInput (img : String) : Prop :=
  img.data.head? ≠ some '/' ∧ (':' ∈ remainder img → textAfter ':' (remainder img) ≠ [])

instance (img : String) : Decidable (RoundTripInput img) := by
  unfold RoundTripInput; infer_instance

/-! ## The calls the specification expects -/

/-- The calls of one Notifier run on `config`, as the specification words them:
the notify command once when it is not empty, then one signal request for each
entry of the notify-target map. -/
def notifierCalls (client : Client) (config : Config) : List Effect :=
  (if config.NotifyCmd = "" then [] else [Effect.notifyCmd config.NotifyCmd]) ++
    config.NotifyContainers.map fun e => Effect.signal client e.1 e.2

/-- The calls of one generate-all pass after the pull, as the specification words
them, given the change result of each output: for each output in turn, one render
against the snapshot, followed by a Notifier run when the result is `true`. -/
def passCalls (client : Client) (containers : Context) : List Config → List Bool → List Effect
  | config :: rest, changed :: more =>
    Effect.render config containers changed ::
      ((if changed then notifierCalls client config else []) ++
        passCalls client containers rest more)
  | _, _ => []

/-- The state of the outside world after one Notifier run from the state `w`, as
the specification words it: the notify command is executed if it is not empty,
then `KillContainer` is called for each entry of the notify-target map in turn,
whatever the earlier calls returned. -/
def notifierWorld {W : Type} (x : Ext W) (client : Client) (config : Config) (w : W) : W :=
  config.NotifyContainers.foldl (fun w1 e => (x.KillContainer client e.1 e.2 w1).2)
    (if config.NotifyCmd = "" then w else (x.CombinedOutput config.NotifyCmd w).2)

/-- The change results of one generate-all pass and the state of the outside world
after it, from the state `w` after the pull, as the specification words it: each
output in turn is rendered against the snapshot by `generateFile`, whose result is
the change result of that output, and the Notifier runs for that output exactly
when that result is `true`. -/
def passRun {W : Type} (x : Ext W) (client : Client) (containers : Context) :
    List Config → W → List Bool × W
  | [], w => ([], w)
  | config :: rest, w =>
    let changed := (x.generateFile config containers w).1
    let w1 := (x.generateFile config containers w).2
    let w2 := if changed then notifierWorld x client config w1 else w1
    (changed :: (passRun x client containers rest w2).1, (passRun x client containers rest w2).2)

/-- The output and the snapshot of a render call. -/
def Effect.rendered : Effect → Option (Config × Context)
  | .render config containers _ => some (config, containers)
  | _ => none

/-- Is the effect a render call, a notify command or a signal request? -/
def Effect.isOutput (e : Effect) : Bool := e.isRender || e.isNotifyCmd || e.isSignal

/-! ## A scripted outside world, for the examples -/

/-- The answers of a scripted outside world: it has no state and answers each
kind of call the same way every time. -/
structure Script where
  listed : Except Err (List APIContainers)
  pingErr : Option Err
  listenErr : Option ListenErr
  wake : Wake
  changed : Config → Bool
  cmdErr : Option Err
  killErr : Option Err

/-- The container that the scripted world reports for the identifier `id`. -/
def Script.inspected (id : String) : Container where
  ID := id
  Name := "/web"
  Image := "nginx:1.9"
  Hostname := "web"
  Env := []
  Labels := []
  Gateway := "172.17.0.1"
  IPAddress := "172.17.0.2"
  LinkLocalIPv6Address := ""
  GlobalIPv6Address := ""
  Ports := []
  Volumes := []
  VolumesRW := []
  Node := none

/-- The outside world of a script. -/
def Script.ext (s : Script) : Ext Unit where
  ListContainers := fun _ w => (s.listed, w)
  InspectContainer := fun _ id w => (.ok (Script.inspected id), w)
  KillContainer := fun _ _ _ w => (s.killErr, w)
  Ping := fun _ w => (s.pingErr, w)
  AddEventListener := fun _ w => (s.listenErr, w)
  RemoveEventListener := fun _ w => (none, w)
  NewClient := fun _ w => (.ok ⟨1⟩, w)
  NewTLSClient := fun _ _ _ _ w => (.ok ⟨2⟩, w)
  CombinedOutput := fun _ w => (("", s.cmdErr), w)
  generateFile := fun config _ w => (s.changed config, w)
  GetEndpoint := fun endpoint w => (.ok endpoint, w)
  PathExists := fun _ w => ((false, none), w)
  SplitKeyValueSlice := fun _ => []
  selectEvent := fun w => (s.wake, w)
  tls := ⟨"", "", "", false⟩

/-- The outside world of a script that keeps a record: its state is the list of
the calls it has received so far, oldest first. -/
def Script.recording (s : Script) : Ext (List Effect) where
  ListContainers := fun client w => (s.listed, w ++ [.listContainers client])
  InspectContainer := fun _ id w => (.ok (Script.inspected id), w)
  KillContainer := fun client container sig w => (s.killErr, w ++ [.signal client container sig])
  Ping := fun client w => (s.pingErr, w ++ [.ping client])
  AddEventListener := fun client w => (s.listenErr, w ++ [.addEventListener client])
  RemoveEventListener := fun client w => (none, w ++ [.removeEventListener client])
  NewClient := fun endpoint w => (.ok ⟨1⟩, w ++ [.connect endpoint])
  NewTLSClient := fun endpoint _ _ _ w => (.ok ⟨2⟩, w ++ [.connect endpoint])
  CombinedOutput := fun cmd w => (("", s.cmdErr), w ++ [.notifyCmd cmd])
  generateFile := fun config containers w =>
    (s.changed config, w ++ [.render config containers (s.changed config)])
  GetEndpoint := fun endpoint w => (.ok endpoint, w ++ [.getEndpoint endpoint])
  PathExists := fun _ w => ((false, none), w)
  SplitKeyValueSlice := fun _ => []
  selectEvent := fun w => (s.wake, w)
  tls := ⟨"", "", "", false⟩

/-- A script where the daemon answers but the notify command and every signal
request fail; every output changes. -/
def Script.failing : Script where
  listed := .ok [⟨"c1"⟩]
  pingErr := none
  listenErr := none
  wake := .timeout
  changed := fun _ => true
  cmdErr := some "exit status 1"
  killErr := some "no such container"

/-- An output config with the given destination, notify command, notify-target
map, watch flag and interval. -/
def output (dest cmd : String) (targets : List (String × Signal)) (watch : Bool)
    (interval : Int) : Config where
  Template := dest ++ ".tmpl"
  Dest := dest
  Watch := watch
  NotifyCmd := cmd
  NotifyContainers := targets
  OnlyExposed := false
  OnlyPublished := false
  Interval := interval
  KeepBlankLines := false

/-- The snapshot the scripted world yields when it lists the one container `c1`. -/
def Script.snapshot : Context :=
  [{ ID := "c1"
     Addresses := []
     Gateway := "172.17.0.1"
     Name := "web"
     Hostname := "web"
     Image := ⟨"", "nginx", "1.9"⟩
     Env := []
     Volumes := []
     Node := ⟨"", "", Address.zero⟩
     Labels := []
     IP := "172.17.0.2"
     IP6LinkLocal := ""
     IP6Global := "" }]

/-- A script where everything succeeds: one container is listed, the daemon
answers the ping, the event channel delivers `wake`, and an output changes
exactly when its destination is `"a"`. -/
def Script.healthy (wake : Wake) : Script where
  listed := .ok [⟨"c1"⟩]
  pingErr := none
  listenErr := none
  wake := wake
  changed := fun config => config.Dest == "a"
  cmdErr := none
  killErr := none

/-- A script whose daemon cannot be reached: listing the containers and the ping
fail. -/
def Script.unreachable (wake : Wake) : Script where
  listed := .error "cannot connect to the Docker daemon"
  pingErr := some "cannot connect to the Docker daemon"
  listenErr := none
  wake := wake
  changed := fun _ => true
  cmdErr := none
  killErr := none

/-! ## Facts about the string operations -/

theorem contains_iff (s : String) (c : Char) : Contains s c = true ↔ c ∈ s.data := by
  unfold Contains
  exact String.contains_iff s c

theorem split_at_first (l : List Char) (c : Char) (h : c ∈ l) :
    l = textBefore c l ++ c :: textAfter c l ∧ c ∉ textBefore c l := by
  unfold textBefore textAfter
  induction l with
  | nil => simp at h
  | cons x xs ih =>
    by_cases hx : x = c
    · subst hx; simp [List.takeWhile, List.dropWhile]
    · have hc : c ∈ xs := by
        rcases List.mem_cons.mp h with h | h
        · exact absurd h.symm hx
        · exact h
      obtain ⟨h1, h2⟩ := ih hc
      have hb : (x == c) = false := by simpa using hx
      simp only [List.takeWhile, List.dropWhile, hb, Bool.not_false, List.cons_append,
        List.mem_cons, not_or]
      exact ⟨by rw [← h1], fun e => hx e.symm, h2⟩

theorem posOf_first (a b : List Char) (c : Char) (h : c ∉ a) :
    (String.posOf ⟨a ++ c :: b⟩ c).byteIdx = String.utf8Len a := by
  rw [String.posOf_eq, String.find_of_valid]
  simp only
  congr 1
  induction a with
  | nil => simp [List.takeWhile]
  | cons x xs ih =>
    have hx : (x == c) = false := by
      have : x ≠ c := fun e => h (by simp [e])
      simpa using this
    have hxs : c ∉ xs := fun e => h (List.mem_cons_of_mem _ e)
    simp only [List.cons_append, List.takeWhile, hx, Bool.not_false]
    exact congrArg _ (ih hxs)

theorem index_first (a b : List Char) (c : Char) (h : c ∉ a) :
    Index ⟨a ++ c :: b⟩ c = (String.utf8Len a : Int) := by
  unfold Index
  have hc : String.contains ⟨a ++ c :: b⟩ c = true := by
    rw [String.contains_iff]; simp
  rw [if_pos hc, posOf_first a b c h]

theorem len_mk (l : List Char) : len ⟨l⟩ = (String.utf8Len l : Int) := rfl

theorem slice_head (a b : List Char) (c : Char) :
    slice ⟨a ++ c :: b⟩ 0 (String.utf8Len a : Int) = .ok ⟨a⟩ := by
  unfold slice
  have hle : (String.utf8Len a : Int) ≤ len ⟨a ++ c :: b⟩ := by
    rw [len_mk, String.utf8Len_append]; omega
  rw [if_pos ⟨le_refl _, by omega, hle⟩]
  have := String.extract_of_valid [] a (c :: b)
  simp only [List.nil_append, String.utf8Len_nil, Nat.zero_add] at this
  simp only [Int.toNat_zero, Int.toNat_ofNat]
  exact congrArg _ this

theorem sliceFrom_tail (a b : List Char) (c : Char) (hc : c.utf8Size = 1) :
    sliceFrom ⟨a ++ c :: b⟩ ((String.utf8Len a : Int) + 1) = .ok ⟨b⟩ := by
  unfold sliceFrom slice
  have hlen : len ⟨a ++ c :: b⟩ = (String.utf8Len a : Int) + 1 + String.utf8Len b := by
    rw [len_mk, String.utf8Len_append, String.utf8Len_cons, hc]; push_cast; ring
  rw [if_pos ⟨by omega, by omega, le_refl _⟩, hlen]
  have := String.extract_of_valid (a ++ [c]) b []
  simp only [List.append_assoc, List.singleton_append, List.append_nil, String.utf8Len_append,
    String.utf8Len_cons, String.utf8Len_nil, Nat.zero_add, hc] at this
  have e1 : ((String.utf8Len a : Int) + 1).toNat = String.utf8Len a + 1 := by omega
  have e2 : ((String.utf8Len a : Int) + 1 + String.utf8Len b).toNat
      = String.utf8Len a + 1 + String.utf8Len b := by omega
  rw [e1, e2]
  exact congrArg _ this

theorem contains_false (s : String) (c : Char) (h : c ∉ s.data) : Contains s c = false := by
  cases hc : Contains s c with
  | false => rfl
  | true => exact absurd ((contains_iff s c).mp hc) h

theorem contains_first (a b : List Char) (c : Char) : Contains ⟨a ++ c :: b⟩ c = true := by
  rw [contains_iff]; simp

theorem textAfter_absent (l : List Char) (c : Char) (h : c ∉ l) : textAfter c l = [] := by
  unfold textAfter
  have : l.dropWhile (fun x => !(x == c)) = [] := by
    rw [List.dropWhile_eq_nil_iff]
    intro x hx
    have : x ≠ c := fun e => h (e ▸ hx)
    simpa using this
  rw [this]; rfl

theorem textBefore_absent (l : List Char) (c : Char) (h : c ∉ l) : textBefore c l = l := by
  unfold textBefore
  rw [List.takeWhile_eq_self_iff]
  intro x hx
  have : x ≠ c := fun e => h (e ▸ hx)
  simpa using this

/-- The second half of `splitDockerImage`, on the remainder `r`: what its
condition and its two slices evaluate to. -/
theorem split_tag (r : List Char) :
    (Contains ⟨r⟩ ':' = true ∧
        sliceFrom ⟨r⟩ (Index ⟨r⟩ ':' + 1) = .ok ⟨textAfter ':' r⟩ ∧
        slice ⟨r⟩ 0 (Index ⟨r⟩ ':') = .ok ⟨textBefore ':' r⟩) ∨
    (Contains ⟨r⟩ ':' = false ∧ textBefore ':' r = r ∧ textAfter ':' r = []) := by
  by_cases hc : ':' ∈ r
  · obtain ⟨h1, h2⟩ := split_at_first r ':' hc
    refine Or.inl ?_
    have e : (⟨r⟩ : String) = ⟨textBefore ':' r ++ ':' :: textAfter ':' r⟩ := by rw [← h1]
    rw [e, contains_first, index_first _ _ _ h2]
    exact ⟨rfl, sliceFrom_tail (textBefore ':' r) (textAfter ':' r) ':' (by decide),
      slice_head (textBefore ':' r) (textAfter ':' r) ':'⟩
  · exact Or.inr ⟨contains_false ⟨r⟩ ':' hc, textBefore_absent r ':' hc,
      textAfter_absent r ':' hc⟩

/-- What `splitDockerImage` computes, for every string: it never panics, the
registry is the text before the first `/` (empty without a `/`), the repository
is the text of the remainder before its first `:`, the tag the text after it. -/
theorem splitDockerImage_eq (img : String) :
    splitDockerImage img = .ok
      ((if '/' ∈ img.data then ⟨textBefore '/' img.data⟩ else ""),
        ⟨textBefore ':' (remainder img)⟩, ⟨textAfter ':' (remainder img)⟩) := by
  obtain ⟨l⟩ := img
  by_cases hs : '/' ∈ l
  · obtain ⟨h1, h2⟩ := split_at_first l '/' hs
    have hrem : remainder ⟨l⟩ = textAfter '/' l := by simp [remainder, hs]
    rw [hrem]
    simp only [if_pos hs]
    have e : (⟨l⟩ : String) = ⟨textBefore '/' l ++ '/' :: textAfter '/' l⟩ := by rw [← h1]
    unfold splitDockerImage
    rw [e, contains_first, index_first _ _ _ h2]
    simp only [if_true]
    rw [sliceFrom_tail (textBefore '/' l) (textAfter '/' l) '/' (by decide),
      slice_head (textBefore '/' l) (textAfter '/' l) '/']
    rcases split_tag (textAfter '/' l) with ⟨hC, hA, hB⟩ | ⟨hC, hA, hB⟩
    · simp only [bind, Except.bind, pure, Except.pure, hC, hA, hB, if_true]
    · simp only [bind, Except.bind, pure, Except.pure, hC, hA, hB, Bool.false_eq_true,
        if_false]
  · have hrem : remainder ⟨l⟩ = l := by simp [remainder, hs]
    rw [hrem]
    simp only [if_neg hs]
    unfold splitDockerImage
    rw [contains_false ⟨l⟩ '/' hs]
    rcases split_tag l with ⟨hC, hA, hB⟩ | ⟨hC, hA, hB⟩
    · simp only [bind, Except.bind, pure, Except.pure, hC, hA, hB, if_true,
        Bool.false_eq_true, if_false]
    · simp only [bind, Except.bind, pure, Except.pure, hC, hA, hB, Bool.false_eq_true,
        if_false]

theorem string_of_parts (reg repo tag : List Char) :
    DockerImage.String ⟨⟨reg⟩, ⟨repo⟩, ⟨tag⟩⟩
      = ⟨(if reg = [] then [] else reg ++ ['/']) ++ repo
          ++ (if tag = [] then [] else ':' :: tag)⟩ := by
  unfold DockerImage.String
  apply String.ext
  by_cases h1 : reg = [] <;> by_cases h2 : tag = [] <;>
    simp [h1, h2, String.ext_iff, bne_iff_ne]

/-- A remainder is its text before the first `:`, followed by `:` and the tag
when the tag is not empty. -/
theorem remainder_parts (r : List Char) (hr : ':' ∈ r → textAfter ':' r ≠ []) :
    r = textBefore ':' r ++ (if textAfter ':' r = [] then [] else ':' :: textAfter ':' r) := by
  by_cases hc : ':' ∈ r
  · rw [if_neg (hr hc)]; exact (split_at_first r ':' hc).1
  · rw [textAfter_absent r ':' hc, textBefore_absent r ':' hc]; simp

/-- Printing the parts of a round-trip input gives the input back. -/
theorem string_of_split (l : List Char) (h : RoundTripInput ⟨l⟩) :
    DockerImage.String
      ⟨(if '/' ∈ l then ⟨textBefore '/' l⟩ else ""), ⟨textBefore ':' (remainder ⟨l⟩)⟩,
        ⟨textAfter ':' (remainder ⟨l⟩)⟩⟩ = ⟨l⟩ := by
  obtain ⟨hhead, hcolon⟩ := h
  have hr := remainder_parts (remainder ⟨l⟩) hcolon
  by_cases hs : '/' ∈ l
  · obtain ⟨h1, h2⟩ := split_at_first l '/' hs
    have hrem : remainder ⟨l⟩ = textAfter '/' l := by simp [remainder, hs]
    have hreg : textBefore '/' l ≠ [] := by
      intro e
      rw [e] at h1
      rw [h1] at hhead
      simp at hhead
    rw [if_pos hs, string_of_parts, if_neg hreg]
    congr 1
    conv_rhs => rw [h1, ← hrem, hr]
    simp
  · have hrem : remainder ⟨l⟩ = l := by simp [remainder, hs]
    have : ("" : String) = ⟨[]⟩ := rfl
    rw [if_neg hs, this, string_of_parts]
    congr 1
    conv_rhs => rw [← hrem, hr]
    simp

/-- C10: for every image name `img` that does not start with `/` and whose first
`:` after the first `/` (or first `:` at all, when there is no `/`) is not the last
character, `splitDockerImage img` returns (without panicking) a triple
`(registry, repository, tag)` whose `DockerImage` prints back as `img`; the registry
is the text before the first `/` (empty when there is none) and the tag is the text
after the first `:` of the remainder (empty when there is none). -/
theorem splitDockerImage_roundtrip (img : String) (h : RoundTripInput img) :
    ∃ registry repository tag,
      splitDockerImage img = .ok (registry, repository, tag) ∧
      (DockerImage.mk registry repository tag).String = img ∧
      registry = (if '/' ∈ img.data then ⟨textBefore '/' img.data⟩ else "") ∧
      tag = ⟨textAfter ':' (remainder img)⟩ :=
  ⟨_, _, _, splitDockerImage_eq img, string_of_split img.data h, rfl, rfl⟩

theorem splitDockerImage_roundtrip_witness :
    RoundTripInput "localhost:5000/library/nginx:1.9" ∧
    ∃ registry repository tag,
      splitDockerImage "localhost:5000/library/nginx:1.9" = .ok (registry, repository, tag) ∧
      (DockerImage.mk registry repository tag).String = "localhost:5000/library/nginx:1.9" ∧
      registry = (if '/' ∈ "localhost:5000/library/nginx:1.9".data
        then ⟨textBefore '/' "localhost:5000/library/nginx:1.9".data⟩ else "") ∧
      tag = ⟨textAfter ':' (remainder "localhost:5000/library/nginx:1.9")⟩ :=
  ⟨by decide, splitDockerImage_roundtrip "localhost:5000/library/nginx:1.9" (by decide)⟩

/-! ## The Notifier -/

theorem sendSignal_loop_eq {W : Type} (x : Ext W) (client : Client)
    (l : List (String × Signal)) (w : W) :
    sendSignalToContainer.loop x client l w
      = (l.foldl (fun w1 e => (x.KillContainer client e.1 e.2 w1).2) w,
          l.map fun e => Effect.signal client e.1 e.2) := by
  induction l generalizing w with
  | nil => rfl
  | cons e rest ih =>
    obtain ⟨container, signal⟩ := e
    simp only [sendSignalToContainer.loop, List.map_cons, List.foldl_cons]
    rw [ih]

theorem sendSignal_eq {W : Type} (x : Ext W) (client : Client) (config : Config) (w : W) :
    sendSignalToContainer x client config w
      = (config.NotifyContainers.foldl (fun w1 e => (x.KillContainer client e.1 e.2 w1).2) w,
          config.NotifyContainers.map fun e => Effect.signal client e.1 e.2) := by
  unfold sendSignalToContainer
  split
  · next h =>
    have : config.NotifyContainers = [] := List.length_eq_zero.mp (by omega)
    rw [this]; rfl
  · exact sendSignal_loop_eq x client _ w

theorem runNotifyCmd_eq {W : Type} (x : Ext W) (config : Config) (w : W) :
    runNotifyCmd x config w
      = if config.NotifyCmd = "" then (w, [])
        else ((x.CombinedOutput config.NotifyCmd w).2, [Effect.notifyCmd config.NotifyCmd]) := by
  unfold runNotifyCmd
  by_cases h : config.NotifyCmd = "" <;> simp [h]

/-- One Notifier run, as a whole: the state it leaves and the calls it makes. -/
theorem notifier_eq {W : Type} (x : Ext W) (client : Client) (config : Config) (w : W) :
    notifier x client config w
      = (notifierWorld x client config w, notifierCalls client config) := by
  unfold notifier notifierWorld notifierCalls
  rw [runNotifyCmd_eq]
  by_cases h : config.NotifyCmd = "" <;> simp [h, sendSignal_eq]

theorem notifier_trace {W : Type} (x : Ext W) (client : Client) (config : Config) (w : W) :
    (notifier x client config w).2 = notifierCalls client config := by
  rw [notifier_eq]

/-- C7: for every output config, every handle and every behaviour of the outside
world (so whether or not the command or a signal request fails), one Notifier run
is exactly this: `runNotifyCmd` executes the notify command once through
`CombinedOutput` if it is not empty and does nothing if it is empty; then
`sendSignalToContainer` calls `KillContainer` once for each entry of the
notify-target map, in turn, each on the state the previous call left.  The state of
the outside world after the run is the state after exactly these calls, and the
calls made are exactly these, in this order. -/
theorem notifier_calls {W : Type} (x : Ext W) (client : Client) (config : Config) (w : W) :
    notifier x client config w
      = (notifierWorld x client config w, notifierCalls client config) ∧
    runNotifyCmd x config w
      = (if config.NotifyCmd = "" then (w, [])
         else ((x.CombinedOutput config.NotifyCmd w).2,
                [Effect.notifyCmd config.NotifyCmd])) ∧
    (∀ w1, sendSignalToContainer x client config w1
      = (config.NotifyContainers.foldl
            (fun w2 e => (x.KillContainer client e.1 e.2 w2).2) w1,
          config.NotifyContainers.map fun e => Effect.signal client e.1 e.2)) ∧
    notifier x client config w
      = ((sendSignalToContainer x client config (runNotifyCmd x config w).1).1,
          (runNotifyCmd x config w).2
            ++ (sendSignalToContainer x client config (runNotifyCmd x config w).1).2) :=
  ⟨notifier_eq x client config w, runNotifyCmd_eq x config w,
    fun w1 => sendSignal_eq x client config w1, rfl⟩

/-- A Notifier run in a world that records its calls, where the notify command
fails and every signal request fails: the command is executed once and each of
the two targets still gets its signal request, in the order of the map. -/
theorem scenario_notifier_failures :
    notifier Script.failing.recording ⟨1⟩
        (output "a" "reload-a" [("web", 1), ("proxy", 15)] true 0) []
      = ([ Effect.notifyCmd "reload-a", Effect.signal ⟨1⟩ "web" 1,
           Effect.signal ⟨1⟩ "proxy" 15 ],
         [ Effect.notifyCmd "reload-a", Effect.signal ⟨1⟩ "web" 1,
           Effect.signal ⟨1⟩ "proxy" 15 ]) ∧
    notifier Script.failing.recording ⟨1⟩
        (output "a" "" [("web", 1)] true 0) []
      = ([Effect.signal ⟨1⟩ "web" 1], [Effect.signal ⟨1⟩ "web" 1]) :=
  ⟨rfl, rfl⟩

/-! ## The generate-all pass -/

theorem pass_loop_eq {W : Type} (x : Ext W) (client : Client) (containers : Context)
    (configs : List Config) (w : W) :
    generateFromContainers.loop x client containers configs w
      = ((passRun x client containers configs w).2,
          passCalls client containers configs (passRun x client containers configs w).1) := by
  induction configs generalizing w with
  | nil => rfl
  | cons config rest ih =>
    cases hc : (x.generateFile config containers w).1 with
    | false =>
      simp only [generateFromContainers.loop, hc, passRun, passCalls, Bool.not_false, if_true,
        Bool.false_eq_true, if_false, List.nil_append]
      rw [ih]
    | true =>
      simp only [generateFromContainers.loop, hc, passRun, passCalls, Bool.not_true, if_true,
        Bool.false_eq_true, if_false, notifier_eq]
      rw [ih]

theorem passRun_length {W : Type} (x : Ext W) (client : Client) (containers : Context)
    (configs : List Config) (w : W) :
    (passRun x client containers configs w).1.length = configs.length := by
  induction configs generalizing w with
  | nil => rfl
  | cons config rest ih => simp only [passRun, List.length_cons, ih]

theorem passCalls_rendered (client : Client) (containers : Context) (configs : List Config)
    (changed : List Bool) (h : changed.length = configs.length) :
    (passCalls client containers configs changed).filterMap Effect.rendered
      = configs.map fun config => (config, containers) := by
  induction configs generalizing changed with
  | nil => cases changed <;> rfl
  | cons config rest ih =>
    cases changed with
    | nil => simp at h
    | cons b more =>
      have hn : (notifierCalls client config).filterMap Effect.rendered = [] := by
        unfold notifierCalls
        by_cases hcmd : config.NotifyCmd = "" <;>
          simp [hcmd, List.filterMap_append, List.filterMap_map, Effect.rendered,
            Function.comp_def]
      have hlen : more.length = rest.length := by simpa using h
      cases b <;>
        simp [passCalls, List.filterMap_cons, Effect.rendered, List.filterMap_append, hn,
          ih more hlen]

/-- C1: for every list of output configs and every behaviour of the outside
world, if the snapshot pull of a generate-all pass returns the snapshot
`containers` and leaves the world in state `w1`, the pass ends without a panic
and is exactly this, from `w1`: for each output in the configured order,
`generateFile` is called once on that output and `containers`, and the Notifier
runs for that output if and only if that call returned `changed = true`
(`passRun` is the list of the values `generateFile` returned and the state these
calls leave; `passCalls` is the calls, in order).  So the render calls of the pass
are exactly one per output, in the configured order, all against `containers`. -/
theorem generateFromContainers_calls {W : Type} (x : Ext W) (configs : ConfigFile)
    (client : Client) (w w1 : W) (containers : Context) (t1 : List Effect)
    (hpull : getContainers x client w = (.ok (.ok containers), w1, t1)) :
    generateFromContainers x configs client w
      = (.ok (), (passRun x client containers configs.Config w1).2,
          t1 ++ passCalls client containers configs.Config
            (passRun x client containers configs.Config w1).1) ∧
    (passRun x client containers configs.Config w1).1.length = configs.Config.length ∧
    (passCalls client containers configs.Config
        (passRun x client containers configs.Config w1).1).filterMap Effect.rendered
      = (configs.Config.map fun config => (config, containers)) ∧
    (∀ (config : Config) (rest : List Config) (w2 : W),
      passRun x client containers (config :: rest) w2
        = ((x.generateFile config containers w2).1
              :: (passRun x client containers rest
                  (if (x.generateFile config containers w2).1
                    then notifierWorld x client config (x.generateFile config containers w2).2
                    else (x.generateFile config containers w2).2)).1,
            (passRun x client containers rest
              (if (x.generateFile config containers w2).1
                then notifierWorld x client config (x.generateFile config containers w2).2
                else (x.generateFile config containers w2).2)).2)) := by
  have hlen := passRun_length x client containers configs.Config w1
  refine ⟨?_, hlen, passCalls_rendered client containers configs.Config _ hlen,
    fun _ _ _ => rfl⟩
  unfold generateFromContainers
  rw [hpull]
  simp only
  rw [pass_loop_eq]

/-- C2: for every list of output configs, if the snapshot pull of a generate-all
pass fails, the pass returns right after the pull: the world is as the failed pull
left it and the calls of the pass are those of the pull alone, among which there is
no render call, no notify command and no signal request. -/
theorem generateFromContainers_pull_failed {W : Type} (x : Ext W) (configs : ConfigFile)
    (client : Client) (w w1 : W) (err : Err) (t1 : List Effect)
    (hpull : getContainers x client w = (.ok (.error err), w1, t1)) :
    generateFromContainers x configs client w = (.ok (), w1, t1) ∧
    t1 = [Effect.listContainers client] ∧
    (generateFromContainers x configs client w).2.2.all (fun e => !e.isOutput) = true := by
  have ht : t1 = [Effect.listContainers client] := by
    unfold getContainers at hpull
    split at hpull
    · simp only [Prod.mk.injEq] at hpull; exact hpull.2.2.symm
    · split at hpull <;> simp at hpull
  have hgen : generateFromContainers x configs client w = (.ok (), w1, t1) := by
    unfold generateFromContainers
    rw [hpull]
  refine ⟨hgen, ht, ?_⟩
  rw [hgen, ht]
  rfl

theorem healthy_pull (wake : Wake) (client : Client) :
    getContainers (Script.healthy wake).ext client ()
      = (.ok (.ok Script.snapshot), (), [Effect.listContainers client]) := by
  simp [getContainers, getContainers.loop, Script.healthy, Script.ext, runtimeContainer,
    splitDockerImage_eq, Script.inspected, Script.snapshot]
  decide

theorem recording_pull (wake : Wake) (client : Client) (w : List Effect) :
    getContainers (Script.healthy wake).recording client w
      = (.ok (.ok Script.snapshot), w ++ [Effect.listContainers client],
          [Effect.listContainers client]) := by
  simp [getContainers, getContainers.loop, Script.healthy, Script.recording, runtimeContainer,
    splitDockerImage_eq, Script.inspected, Script.snapshot]
  decide

theorem generateFromContainers_calls_witness :
    getContainers (Script.healthy .timeout).recording ⟨1⟩ []
      = (.ok (.ok Script.snapshot), [Effect.listContainers ⟨1⟩],
          [Effect.listContainers ⟨1⟩]) ∧
    generateFromContainers (Script.healthy .timeout).recording
        ⟨[output "a" "reload-a" [("web", 1)] true 0, output "b" "reload-b" [] true 0]⟩ ⟨1⟩ []
      = (.ok (),
          (passRun (Script.healthy .timeout).recording ⟨1⟩ Script.snapshot
            [output "a" "reload-a" [("web", 1)] true 0, output "b" "reload-b" [] true 0]
            [Effect.listContainers ⟨1⟩]).2,
          [Effect.listContainers ⟨1⟩] ++ passCalls ⟨1⟩ Script.snapshot
            [output "a" "reload-a" [("web", 1)] true 0, output "b" "reload-b" [] true 0]
            (passRun (Script.healthy .timeout).recording ⟨1⟩ Script.snapshot
              [output "a" "reload-a" [("web", 1)] true 0, output "b" "reload-b" [] true 0]
              [Effect.listContainers ⟨1⟩]).1) ∧
    (passRun (Script.healthy .timeout).recording ⟨1⟩ Script.snapshot
        [output "a" "reload-a" [("web", 1)] true 0, output "b" "reload-b" [] true 0]
        [Effect.listContainers ⟨1⟩]).1 = [true, false] :=
  ⟨recording_pull _ _ _,
    (generateFromContainers_calls (Script.healthy .timeout).recording
      ⟨[output "a" "reload-a" [("web", 1)] true 0, output "b" "reload-b" [] true 0]⟩ ⟨1⟩ []
      [Effect.listContainers ⟨1⟩] Script.snapshot _ (recording_pull _ _ _)).1,
    rfl⟩

/-- The scenario of two outputs A and B of which only A changes, in a world that
records its calls: the pass renders A, runs `reload-a` and signals A's target,
renders B, and does not run `reload-b`; the world received exactly these calls. -/
theorem scenario_two_outputs :
    generateFromContainers (Script.healthy .timeout).recording
        ⟨[output "a" "reload-a" [("web", 1)] true 0, output "b" "reload-b" [] true 0]⟩ ⟨1⟩ []
      = (.ok (),
          [ Effect.listContainers ⟨1⟩,
            Effect.render (output "a" "reload-a" [("web", 1)] true 0) Script.snapshot true,
            Effect.notifyCmd "reload-a",
            Effect.signal ⟨1⟩ "web" 1,
            Effect.render (output "b" "reload-b" [] true 0) Script.snapshot false ],
          [ Effect.listContainers ⟨1⟩,
            Effect.render (output "a" "reload-a" [("web", 1)] true 0) Script.snapshot true,
            Effect.notifyCmd "reload-a",
            Effect.signal ⟨1⟩ "web" 1,
            Effect.render (output "b" "reload-b" [] true 0) Script.snapshot false ]) := by
  unfold generateFromContainers
  rw [recording_pull]
  rfl

theorem unreachable_pull (wake : Wake) (client : Client) :
    getContainers (Script.unreachable wake).ext client ()
      = (.ok (.error "cannot connect to the Docker daemon"), (),
          [Effect.listContainers client]) := rfl

theorem generateFromContainers_pull_failed_witness :
    getContainers (Script.unreachable .timeout).ext ⟨1⟩ ()
      = (.ok (.error "cannot connect to the Docker daemon"), (),
          [Effect.listContainers ⟨1⟩]) ∧
    (generateFromContainers (Script.unreachable .timeout).ext
        ⟨[output "a" "reload-a" [("web", 1)] true 0]⟩ ⟨1⟩ ()
      = (.ok (), (), [Effect.listContainers ⟨1⟩]) ∧
    [Effect.listContainers ⟨1⟩] = [Effect.listContainers ⟨1⟩] ∧
    (generateFromContainers (Script.unreachable .timeout).ext
        ⟨[output "a" "reload-a" [("web", 1)] true 0]⟩ ⟨1⟩ ()).2.2.all
      (fun e => !e.isOutput) = true) :=
  ⟨unreachable_pull _ _,
    generateFromContainers_pull_failed (Script.unreachable .timeout).ext
      ⟨[output "a" "reload-a" [("web", 1)] true 0]⟩ ⟨1⟩ () () _ _ (unreachable_pull _ _)⟩

/-! ## Interval tasks: one tick -/

theorem pull_trace {W : Type} (x : Ext W) (client : Client) (w : W) :
    (getContainers x client w).2.2 = [Effect.listContainers client] := by
  unfold getContainers
  split
  · rfl
  · split <;> rfl

/-- A tick at which `g.client` is not nil, neither when the pull reads it
(`atPull`) nor when the signal dispatch reads it (`atSignal`), for every behaviour
of the outside world.  If the pull returns a snapshot, the tick calls
`generateFile` once on its output and that snapshot and then makes exactly one
Notifier run (notify command, then signal dispatch on `atSignal`), whatever
`generateFile` returned, and the loop goes on.  If the pull returns an error, the
tick makes no call besides the pull, leaves the world as the pull left it, and the
loop goes on. -/
theorem intervalTask_tick {W : Type} (x : Ext W) (atPull atSignal : Client)
    (t : IntervalTask) (w w1 : W) (r : Except Err Context) (t1 : List Effect)
    (hpull : getContainers x atPull w = (.ok r, w1, t1)) :
    match r with
    | .ok containers =>
      t.turn x (some atPull) (some atSignal) .tick w
        = (.ok true,
            notifierWorld x atSignal t.configCopy (x.generateFile t.configCopy containers w1).2,
            t1 ++ Effect.render t.configCopy containers
                (x.generateFile t.configCopy containers w1).1
              :: notifierCalls atSignal t.configCopy)
    | .error _ =>
      t.turn x (some atPull) (some atSignal) .tick w = (.ok true, w1, t1) ∧
      t1 = [Effect.listContainers atPull] := by
  have ht : t1 = [Effect.listContainers atPull] := by
    have := pull_trace x atPull w
    rw [hpull] at this
    exact this
  cases r with
  | ok containers =>
    have hn := notifier_eq x atSignal t.configCopy (x.generateFile t.configCopy containers w1).2
    unfold notifier at hn
    simp only [Prod.mk.injEq] at hn
    simp only [IntervalTask.turn, getContainers.ofPointer, sendSignalToContainer.ofPointer,
      hpull, hn.1, hn.2]
  | error err =>
    refine ⟨?_, ht⟩
    simp only [IntervalTask.turn, getContainers.ofPointer, hpull]

/-- A tick at which `g.client` is nil when the pull reads it panics at once. -/
theorem intervalTask_tick_nil_at_pull {W : Type} (x : Ext W) (atSignal : Option Client)
    (t : IntervalTask) (w : W) :
    t.turn x none atSignal .tick w = (.error .nilDereference, w, []) := rfl

/-- A tick whose pull returns a snapshot and at which `g.client` is nil when the
signal dispatch reads it: with a notify-target map that is not empty the tick
panics after the render and the notify command, before any signal request. -/
theorem intervalTask_tick_nil_at_signal {W : Type} (x : Ext W) (atPull : Client)
    (t : IntervalTask) (w w1 : W) (containers : Context) (t1 : List Effect)
    (hpull : getContainers x atPull w = (.ok (.ok containers), w1, t1))
    (htargets : t.configCopy.NotifyContainers ≠ []) :
    t.turn x (some atPull) none .tick w
      = (.error .nilDereference,
          (runNotifyCmd x t.configCopy (x.generateFile t.configCopy containers w1).2).1,
          t1 ++ Effect.render t.configCopy containers
              (x.generateFile t.configCopy containers w1).1
            :: (runNotifyCmd x t.configCopy (x.generateFile t.configCopy containers w1).2).2)
      := by
  have hlen : ¬ t.configCopy.NotifyContainers.length < 1 := by
    cases h : t.configCopy.NotifyContainers with
    | nil => exact absurd h htargets
    | cons a l => simp
  simp only [IntervalTask.turn, getContainers.ofPointer, sendSignalToContainer.ofPointer,
    hpull, hlen, if_false, List.append_nil]

/-- C6, at a tick that falls after the event watcher has set `g.client` to nil
(it does so after a failed ping or a closed event channel), in a world that
records its calls.  First tick: `g.client` is still a handle when the pull reads
it and the pull succeeds, the output is rendered and the notify command runs, but
`g.client` is nil when `sendSignalToContainer(g.client, configCopy)` reads it: the
tick panics with a nil pointer dereference in `client.KillContainer`, no signal
request is made and the task does not keep running.  Second tick: `g.client` is
already nil when `getContainers(g.client)` reads it: the tick panics in
`client.ListContainers` before any call, instead of skipping the tick. -/
theorem intervalTask_tick_nil_client_panics :
    IntervalTask.turn (Script.healthy .timeout).recording (some ⟨1⟩) none
        ⟨output "b" "reload-b" [("web", 1)] false 30, ⟨30000000000⟩⟩ .tick []
      = (.error .nilDereference,
          [ Effect.listContainers ⟨1⟩,
            Effect.render (output "b" "reload-b" [("web", 1)] false 30) Script.snapshot false,
            Effect.notifyCmd "reload-b" ],
          [ Effect.listContainers ⟨1⟩,
            Effect.render (output "b" "reload-b" [("web", 1)] false 30) Script.snapshot false,
            Effect.notifyCmd "reload-b" ]) ∧
    IntervalTask.turn (Script.healthy .timeout).recording none none
        ⟨output "b" "reload-b" [("web", 1)] false 30, ⟨30000000000⟩⟩ .tick []
      = (.error .nilDereference, [], []) := by
  refine ⟨?_, rfl⟩
  unfold IntervalTask.turn getContainers.ofPointer
  simp only
  rw [recording_pull]
  rfl

/-- A tick with a handle at both reads, on an output that did not change, in a
world that records its calls: the notify command and the signal request are made
all the same. -/
theorem scenario_tick_unchanged :
    IntervalTask.turn (Script.healthy .timeout).recording (some ⟨1⟩) (some ⟨1⟩)
        ⟨output "b" "reload-b" [("web", 1)] false 30, ⟨30000000000⟩⟩ .tick []
      = (.ok true,
          [ Effect.listContainers ⟨1⟩,
            Effect.render (output "b" "reload-b" [("web", 1)] false 30) Script.snapshot false,
            Effect.notifyCmd "reload-b",
            Effect.signal ⟨1⟩ "web" 1 ],
          [ Effect.listContainers ⟨1⟩,
            Effect.render (output "b" "reload-b" [("web", 1)] false 30) Script.snapshot false,
            Effect.notifyCmd "reload-b",
            Effect.signal ⟨1⟩ "web" 1 ]) := by
  unfold IntervalTask.turn getContainers.ofPointer
  simp only
  rw [recording_pull]
  rfl

/-- A tick whose pull fails, with a handle at both reads: nothing but the pull,
and the loop goes on. -/
theorem scenario_tick_pull_failed :
    IntervalTask.turn (Script.unreachable .timeout).recording (some ⟨1⟩) (some ⟨1⟩)
        ⟨output "b" "reload-b" [("web", 1)] false 30, ⟨30000000000⟩⟩ .tick []
      = (.ok true, [Effect.listContainers ⟨1⟩], [Effect.listContainers ⟨1⟩]) := rfl

/-! ## The event watcher: handling an event -/

/-- A step of the subscribed watcher whose ping succeeds is the ping followed by
the `select` statement. -/
theorem inner_subscribed {W : Type} (x : Ext W) (g : Generator) (client : Client) (w w1 : W)
    (hc : g.client = some client) (hping : x.Ping client w = (none, w1)) :
    generateFromEvents.step x g (.inner true) w
      = ((generateFromEvents.select x g client true w1).1,
          (generateFromEvents.select x g client true w1).2.1,
          Effect.ping client :: (generateFromEvents.select x g client true w1).2.2) := by
  simp only [generateFromEvents.step, generateFromEvents.inner, hc, hping, Bool.not_true,
    Bool.false_eq_true, if_false]

/-- Is the status one of `start`, `stop`, `die`? -/
theorem actionable_cond (status : String)
    (h : status = "start" ∨ status = "stop" ∨ status = "die") :
    (status == "start" || status == "stop" || status == "die") = true := by
  rcases h with h | h | h <;> subst h <;> decide

/-- An event with status `start`, `stop` or `die` and a container ID of fewer
than 12 bytes: the step of the subscribed watcher that receives it panics in
`event.ID[:12]`, after the ping and before any generate-all pass. -/
theorem event_short_id_panics {W : Type} (x : Ext W) (g : Generator) (client : Client)
    (w w1 w2 : W) (event : APIEvents)
    (hc : g.client = some client)
    (hping : x.Ping client w = (none, w1))
    (hrecv : x.selectEvent w1 = (.event (some event), w2))
    (hstatus : event.Status = "start" ∨ event.Status = "stop" ∨ event.Status = "die")
    (hid : len event.ID < 12) :
    generateFromEvents.step x g (.inner true) w
      = (.error (.sliceBounds 0 12 (len event.ID)), w2, [Effect.ping client]) := by
  rw [inner_subscribed x g client w w1 hc hping]
  have hslice : sliceTo event.ID 12 = .error (.sliceBounds 0 12 (len event.ID)) := by
    unfold sliceTo slice
    rw [if_neg (by omega)]
  simp only [generateFromEvents.select, hrecv, actionable_cond _ hstatus, if_true, hslice]

/-- C3, at the event `{id: "abc", status: "start"}`: the subscribed watcher, whose
ping succeeded, panics with "slice bounds out of range [:12] with length 3" when
it evaluates `event.ID[:12]`; the handling of the event does not complete and no
generate-all pass is made (the only call of the step is the ping). -/
theorem event_abc_start_panics :
    generateFromEvents.step (Script.healthy (.event (some ⟨"start", "abc", "nginx"⟩))).ext
        ⟨⟨[output "a" "reload-a" [] true 0]⟩, "", some ⟨1⟩, 1⟩ (.inner true) ()
      = (.error (.sliceBounds 0 12 3), (), [Effect.ping ⟨1⟩]) :=
  event_short_id_panics (Script.healthy (.event (some ⟨"start", "abc", "nginx"⟩))).ext
    ⟨⟨[output "a" "reload-a" [] true 0]⟩, "", some ⟨1⟩, 1⟩ ⟨1⟩ () () ()
    ⟨"start", "abc", "nginx"⟩ rfl rfl rfl (by decide) (by decide)

/-! ## The event watcher: a failed ping -/

theorem wrapInt64_of_range (x : Int) (h1 : -9223372036854775808 ≤ x)
    (h2 : x < 9223372036854775808) : wrapInt64 x = x := by
  unfold wrapInt64
  norm_num
  omega

theorem seconds_of_range (n : Int) (h1 : 0 < n) (h2 : n ≤ 9223372036) :
    seconds n = n * 1000000000 := by
  unfold seconds Second
  rw [wrapInt64_of_range n (by omega) (by omega)]
  exact wrapInt64_of_range _ (by omega) (by omega)

/-- On a list of outputs whose intervals all lie between 0 and 9223372036
seconds, the loop of `generateAtInterval` does not panic and starts one goroutine
for each output with a positive interval, in the configured order, each with a
copy of its output config; the wait group counts them. -/
theorem generateAtInterval_loop_in_range (configs : List Config) (acc : Launched)
    (h : ∀ config ∈ configs, 0 ≤ config.Interval ∧ config.Interval ≤ 9223372036) :
    (generateAtInterval.loop configs acc).panic = acc.panic ∧
    (generateAtInterval.loop configs acc).tasks.map (fun t => t.configCopy)
      = acc.tasks.map (fun t => t.configCopy)
        ++ configs.filter (fun config => decide (0 < config.Interval)) ∧
    (generateAtInterval.loop configs acc).wg
      = acc.wg + (configs.filter (fun config => decide (0 < config.Interval))).length := by
  induction configs generalizing acc with
  | nil => simp [generateAtInterval.loop]
  | cons config rest ih =>
    have hrest : ∀ c ∈ rest, 0 ≤ c.Interval ∧ c.Interval ≤ 9223372036 :=
      fun c hc => h c (List.mem_cons_of_mem _ hc)
    obtain ⟨h0, h1⟩ := h config (List.mem_cons_self _ _)
    by_cases hz : config.Interval = 0
    · have hpos : ¬ (0 < config.Interval) := by omega
      simp only [generateAtInterval.loop, hz, beq_self_eq_true, if_true]
      have := ih acc hrest
      simpa [List.filter_cons, hz] using this
    · have hpos : 0 < config.Interval := by omega
      have hsec : NewTicker (seconds config.Interval) = .ok ⟨config.Interval * 1000000000⟩ := by
        rw [seconds_of_range _ hpos h1]
        unfold NewTicker
        rw [if_neg (by omega)]
      have hbeq : (config.Interval == 0) = false := by simpa using hz
      simp only [generateAtInterval.loop, hbeq, Bool.false_eq_true, if_false, hsec]
      obtain ⟨i1, i2, i3⟩ := ih
        { tasks := acc.tasks ++ [⟨config, ⟨config.Interval * 1000000000⟩⟩], wg := acc.wg + 1,
          panic := acc.panic } hrest
      refine ⟨i1, ?_, ?_⟩
      · rw [i2]; simp [List.filter_cons, hpos]
      · rw [i3]; simp [List.filter_cons, hpos]; omega

/-- C5, at the output list `[a, b]` where `a` has interval `-1` and `b` has
interval `5`: `generateAtInterval` passes the test `config.Interval == 0` for `a`,
adds one to the wait group and panics in `time.NewTicker` on the duration of
-1 second; no interval task is started, not even the one for `b`. -/
theorem generateAtInterval_negative_interval_panics :
    generateAtInterval
        ⟨⟨[output "a" "" [] false (-1), output "b" "" [] false 5]⟩, "", some ⟨1⟩, 0⟩
      = { tasks := [], wg := 1, panic := some (.nonPositiveTicker (-1000000000)) } ∧
    ([output "a" "" [] false (-1), output "b" "" [] false 5].filter
      (fun config => decide (0 < config.Interval))).length = 1 := by
  decide

/-! ## The watched outputs -/

end DockerGen
